import Mathlib

/-!
Shallow embedding of `scripts/generate_content.py` (besmart-catalog).

The script reads a declarative source list (`videos.json`), resolves channel
avatars, channel playlist/video listings and playlist metadata through external
probes (`yt-dlp` subprocesses and an oEmbed HTTP lookup), and writes one JSON
document per resolved entity via an atomic temp-file-then-rename writer.

External effects are modelled as oracles packaged in an `Env`:
a probe either returns a parsed semi-structured document or fails with a
classified error (timeout / tool failure / malformed output), exactly the
three ways `_run_json` can raise.  Python dict lookups of possibly-missing
keys become `Option`, Python truthiness of strings is `≠ ""`, and the run of
`main` is embedded as the list of externally visible events it performs
(avatar-probe invocations and document writes) plus the process exit code.
-/

namespace Besmart

/-- Lexicographic comparison of char lists by code point; models Python's
string ordering as used by `sorted(...)` in `main`. -/
def chars_le : List Char → List Char → Bool
  | [], _ => true
  | _ :: _, [] => false
  | a :: as, b :: bs => if a = b then chars_le as bs else decide (a < b)

/-- `str_le a b` is Python's `a <= b` on strings (code-point lexicographic). -/
def str_le (a b : String) : Bool := chars_le a.data b.data

/-- Python's `str.strip()`: drop whitespace from both ends. -/
def py_strip (s : String) : String :=
  ⟨((s.data.dropWhile Char.isWhitespace).reverse.dropWhile Char.isWhitespace).reverse⟩

/-- Python's `s.startswith("PL")` check used by `collect_playlists`. -/
def startswith_PL (s : String) : Bool := "PL".data.isPrefixOf s.data

/-- One record of a `thumbnails` list: a dict that may or may not carry a
`url` key (a present-but-empty url is `some ""`). -/
structure ThumbRec where
  url : Option String
deriving DecidableEq

/-- The argument shape accepted by `_pick_thumb_from_list`: the value found
under a `thumbnails` key may be missing (`None`), not a list at all, or a
list whose elements are dicts or `None`. -/
inductive PyThumbs where
  | absent
  | nonList
  | list (ts : List (Option ThumbRec))
deriving DecidableEq

/-- Body of the scan in `_pick_thumb_from_list`:
`u = (t or {}).get("url"); if u: return u` — the url of one record if it is
present and truthy (non-empty). -/
def thumb_rec_url : Option ThumbRec → Option String
  | none => none
  | some r =>
    match r.url with
    | none => none
    | some u => if u = "" then none else some u

/-- `_pick_thumb_from_list(thumbs)`: `None` unless the input is a non-empty
list; otherwise the first truthy `url` scanning from the end
(`for t in reversed(thumbs)`). -/
def pick_thumb_from_list : PyThumbs → Option String
  | .absent => none
  | .nonList => none
  | .list ts => if ts.isEmpty then none else ts.reverse.findSome? thumb_rec_url

/-- One entry of a flat-listing probe result (`j["entries"][i]`). -/
structure FlatEntry where
  id : Option String
  title : Option String
  thumbnails : PyThumbs
deriving DecidableEq

/-- Parsed output of a flat-listing probe (`yt-dlp --flat-playlist -J`):
the `entries` key may be missing/None, and entries may be `None`. -/
structure FlatDoc where
  entries : Option (List (Option FlatEntry))
deriving DecidableEq

/-- The classified ways `_run_json` (and the inline subprocess call in
`fetch_playlist_meta`) can fail: `subprocess.TimeoutExpired`, a non-zero
exit turned into `RuntimeError`, or `json.loads` failure on the output. -/
inductive PErr where
  | timeout
  | toolFailure (msg : String)
  | malformed (msg : String)
deriving DecidableEq

/-- The shared output item shape produced by the three collectors. -/
structure CatalogItem where
  id : String
  title : String
  url : String
  thumbnail : Option String
  type : String
  categories : List String
  lang : Option String
deriving DecidableEq

/-- First-entry shape used by the `yt-dlp -J` playlist-meta fallback. -/
structure PlEntry where
  thumbnails : PyThumbs
deriving DecidableEq

/-- Parsed output of the full playlist probe in `fetch_playlist_meta`. -/
structure PlaylistProbeDoc where
  title : Option String
  thumbnails : PyThumbs
  entries : Option (List (Option PlEntry))
deriving DecidableEq

/-- Outcome of the oEmbed HTTP lookup in `_oembed_playlist`:
an `HTTPError`, any other exception, or a parsed JSON body with optional
`title` and `thumbnail_url` fields. -/
inductive OembedResp where
  | httpError (code : Nat)
  | failed (msg : String)
  | ok (title : Option String) (thumbnail_url : Option String)
deriving DecidableEq

/-- A `PlaylistMetaDocument` as built by `_oembed_playlist` /
`fetch_playlist_meta`. `thumbnail` is `Option` so that "document with a
null thumbnail field" is expressible. -/
structure MetaDoc where
  playlistId : String
  title : String
  thumbnail : Option String
  generatedAt : String
  source : String
deriving DecidableEq

/-- One entry of `videos.json`'s `items` array; only the keys the script
reads are modelled, each possibly missing. -/
structure SrcItem where
  type : Option String
  channelId : Option String
  id : Option String
deriving DecidableEq

/-- The external world of one run: the contents of `videos.json`
(`none` = file missing, `some none` = present but unparseable JSON,
`some (some items)` = parsed) and one oracle per kind of external call,
keyed by the id the script puts into the target URL.  The full playlist
probe is additionally keyed by the attempt number so that retry behaviour
is observable. -/
structure Env where
  videosJson : Option (Option (List SrcItem))
  avatar : String → Option String
  playlistsProbe : String → Except PErr FlatDoc
  videosProbe : String → Except PErr FlatDoc
  itemsProbe : String → Except PErr FlatDoc
  oembed : String → OembedResp
  fullProbe : String → Nat → Except PErr PlaylistProbeDoc

/-- Default for `(e or {})` on a flat-listing entry. -/
def emptyFlatEntry : FlatEntry := ⟨none, none, .absent⟩

/-- `collect_playlists(channel_id)`: flat-probe the channel's playlists page;
on any probe failure return `[]`; keep only entries whose id starts with
`"PL"`, deriving the playlist-view url from the id. -/
def collect_playlists (env : Env) (channel_id : String) : List CatalogItem :=
  match env.playlistsProbe channel_id with
  | .error _ => []
  | .ok j =>
    (j.entries.getD []).filterMap fun e =>
      let e := e.getD emptyFlatEntry
      let eid := e.id.getD ""
      if startswith_PL eid then
        some { id := eid
               title := e.title.getD ""
               url := "https://www.youtube.com/playlist?list=" ++ eid
               thumbnail := pick_thumb_from_list e.thumbnails
               type := "youtube_playlist"
               categories := []
               lang := none }
      else none

/-- `collect_channel_videos(channel_id)`: flat-probe the channel's videos
page; on any probe failure return `[]`; drop entries with empty/missing id,
deriving the watch url from the id. -/
def collect_channel_videos (env : Env) (channel_id : String) : List CatalogItem :=
  match env.videosProbe channel_id with
  | .error _ => []
  | .ok j =>
    (j.entries.getD []).filterMap fun e =>
      let e := e.getD emptyFlatEntry
      let eid := e.id.getD ""
      if eid = "" then none
      else
        some { id := eid
               title := e.title.getD ""
               url := "https://www.youtube.com/watch?v=" ++ eid
               thumbnail := pick_thumb_from_list e.thumbnails
               type := "youtube_video"
               categories := []
               lang := none }

/-- `collect_playlist_items(pl_id)`: flat-probe the playlist page; on any
probe failure return `[]`; drop entries with empty/missing id. -/
def collect_playlist_items (env : Env) (pl_id : String) : List CatalogItem :=
  match env.itemsProbe pl_id with
  | .error _ => []
  | .ok j =>
    (j.entries.getD []).filterMap fun e =>
      let e := e.getD emptyFlatEntry
      let vid := e.id.getD ""
      if vid = "" then none
      else
        some { id := vid
               title := e.title.getD ""
               url := "https://www.youtube.com/watch?v=" ++ vid
               thumbnail := pick_thumb_from_list e.thumbnails
               type := "youtube_video"
               categories := []
               lang := none }

/-- `_oembed_playlist(pl_id)`: on any HTTP/parse failure return `None`;
otherwise build a document only when `thumbnail_url` is truthy, tagged
`source = "oembed"`. `now` stands for `datetime.utcnow().isoformat()+"Z"`. -/
def oembed_playlist (env : Env) (pl_id : String) (now : String) : Option MetaDoc :=
  match env.oembed pl_id with
  | .httpError _ => none
  | .failed _ => none
  | .ok title thumb =>
    let t := py_strip (title.getD "")
    match thumb with
    | none => none
    | some th =>
      if th = "" then none
      else some { playlistId := pl_id, title := t, thumbnail := some th
                  generatedAt := now, source := "oembed" }

/-- Root-level thumbnail selection of the full playlist probe:
`_pick_thumb_from_list(j.get("thumbnails"))`. -/
def pl_root_thumb (j : PlaylistProbeDoc) : Option String :=
  pick_thumb_from_list j.thumbnails

/-- Fallback thumbnail of the full playlist probe:
`entries = j.get("entries") or []; if entries: _pick_thumb_from_list((entries[0] or {}).get("thumbnails"))`. -/
def pl_entry_thumb (j : PlaylistProbeDoc) : Option String :=
  match j.entries.getD [] with
  | [] => none
  | e :: _ => pick_thumb_from_list ((e.getD ⟨.absent⟩).thumbnails)

/-- The `for attempt in range(1, retries+1)` loop of `fetch_playlist_meta`.
Besides the resolved document it returns how many times the full probe
(the `yt-dlp -J` subprocess) was invoked.  A probe failure moves on to the
next attempt; a successful probe without any obtainable thumbnail returns
`none` immediately; otherwise the document is built with
`source = "yt-dlp"`. -/
def fetch_playlist_meta_loop (probe : Nat → Except PErr PlaylistProbeDoc)
    (pl_id now : String) : Nat → Nat → Option MetaDoc × Nat
  | _, 0 => (none, 0)
  | attempt, remaining + 1 =>
    match probe attempt with
    | .error _ =>
      let r := fetch_playlist_meta_loop probe pl_id now (attempt + 1) remaining
      (r.1, r.2 + 1)
    | .ok j =>
      let title := py_strip (j.title.getD "")
      let thumb :=
        match pl_root_thumb j with
        | some t => some t
        | none => pl_entry_thumb j
      match thumb with
      | none => (none, 1)
      | some t =>
        (some { playlistId := pl_id, title := title, thumbnail := some t
                generatedAt := now, source := "yt-dlp" }, 1)

/-- `fetch_playlist_meta(pl_id, retries)`: oEmbed first; only if that yields
nothing, fall back to the full-probe retry loop.  The second component
counts full-probe (subprocess) invocations. -/
def fetch_playlist_meta (env : Env) (pl_id : String) (retries : Nat) (now : String) :
    Option MetaDoc × Nat :=
  match oembed_playlist env pl_id now with
  | some m => (some m, 0)
  | none => fetch_playlist_meta_loop (env.fullProbe pl_id) pl_id now 1 retries

/-- Python truthiness filter on an optional string value. -/
def truthy_opt : Option String → Option String
  | none => none
  | some s => if s = "" then none else some s

/-- `sorted({it.get("channelId") for it in items if it.get("type") == ty and it.get("channelId")})`:
the deduplicated, ascending-sorted channel ids declared with role `ty`. -/
def channels_for (ty : String) (items : List SrcItem) : List String :=
  List.insertionSort (fun a b => str_le a b = true)
    ((items.filterMap fun it =>
      if it.type = some ty then truthy_opt it.channelId else none).dedup)

/-- `[it["id"] for it in items if it.get("type") == "youtube_playlist" and it.get("id")]`:
the explicitly declared playlist ids, in input order, not deduplicated. -/
def declared_playlists (items : List SrcItem) : List String :=
  items.filterMap fun it =>
    if it.type = some "youtube_playlist" then truthy_opt it.id else none

/-- The four output directories under `catalog/`. -/
inductive Dir where
  | playlists
  | shorts
  | playlist_meta
  | playlist_items
deriving DecidableEq

/-- An output path: directory plus file name. -/
abbrev FPath := Dir × String

/-- The three document shapes `main` writes. -/
inductive OutDoc where
  | channel (channelId : String) (channelAvatar : Option String)
      (generatedAt : String) (items : List CatalogItem)
  | playlistItems (playlistId : String) (generatedAt : String)
      (items : List CatalogItem)
  | meta (m : MetaDoc)
deriving DecidableEq

/-- Externally visible events of a run: an invocation of
`fetch_channel_avatar` or a `write_json` call. -/
inductive Ev where
  | avatarCall (channelId : String)
  | write (path : FPath) (doc : OutDoc)
deriving DecidableEq

/-- Blank out `generatedAt` in a meta document. -/
def erase_meta (m : MetaDoc) : MetaDoc := { m with generatedAt := "" }

/-- Blank out the `generatedAt` field of a document. -/
def erase_doc : OutDoc → OutDoc
  | .channel c a _ its => .channel c a "" its
  | .playlistItems p _ its => .playlistItems p "" its
  | .meta m => .meta (erase_meta m)

/-- Blank out the `generatedAt` field carried by an event. -/
def erase_ev : Ev → Ev
  | .avatarCall c => .avatarCall c
  | .write p d => .write p (erase_doc d)

/-- Is this event a `write_json` call? -/
def is_write_ev : Ev → Bool
  | .write _ _ => true
  | _ => false

/-- Number of documents written to path `p` during the run. -/
def countWritesTo (evts : List Ev) (p : FPath) : Nat :=
  evts.countP fun ev =>
    match ev with
    | .write q _ => decide (q = p)
    | _ => false

/-- Number of `fetch_channel_avatar` invocations for channel `ch`. -/
def countAvatarCalls (evts : List Ev) (ch : String) : Nat :=
  evts.countP fun ev =>
    match ev with
    | .avatarCall c => decide (c = ch)
    | _ => false

/-- The `for ch in ch_for_playlists` body of `main`: one avatar resolution,
one ChannelDocument write into `catalog/playlists/`, then one
PlaylistItemsDocument write per collected playlist with a truthy id. -/
def playlist_role_events (env : Env) (now : String) (ch : String) : List Ev :=
  let avatar := env.avatar ch
  let playlists := collect_playlists env ch
  Ev.avatarCall ch ::
    Ev.write (Dir.playlists, ch ++ ".json") (.channel ch avatar now playlists) ::
    playlists.filterMap fun p =>
      let pl_id := p.id
      if pl_id = "" then none
      else
        some (Ev.write (Dir.playlist_items, pl_id ++ ".json")
          (.playlistItems pl_id now (collect_playlist_items env pl_id)))

/-- The `for ch in ch_for_shorts` body of `main`: one avatar resolution and
one ChannelDocument write into `catalog/shorts/`. -/
def shorts_role_events (env : Env) (now : String) (ch : String) : List Ev :=
  [Ev.avatarCall ch,
   Ev.write (Dir.shorts, ch ++ ".json")
     (.channel ch (env.avatar ch) now (collect_channel_videos env ch))]

/-- The `for pl in pl_ids` body of `main`: a PlaylistMetaDocument write when
`fetch_playlist_meta` (called with its default `retries=1`) resolves, then
always a PlaylistItemsDocument write. -/
def playlist_source_events (env : Env) (now : String) (pl : String) : List Ev :=
  (match (fetch_playlist_meta env pl 1 now).1 with
   | some meta => [Ev.write (Dir.playlist_meta, pl ++ ".json") (.meta meta)]
   | none => []) ++
  [Ev.write (Dir.playlist_items, pl ++ ".json")
    (.playlistItems pl now (collect_playlist_items env pl))]

/-- Everything `main` does after `videos.json` has been loaded, as the list
of its events in order. -/
def run_events (env : Env) (items : List SrcItem) (now : String) : List Ev :=
  ((channels_for "youtube_channel_playlists" items).flatMap (playlist_role_events env now)) ++
  ((channels_for "youtube_channel_shorts" items).flatMap (shorts_role_events env now)) ++
  ((declared_playlists items).flatMap (playlist_source_events env now))

/-- The whole of `main`: events plus process exit code.  A missing
`videos.json` is `sys.exit(1)`; unparseable JSON is an uncaught
`json.JSONDecodeError`, which also terminates the interpreter with status 1;
otherwise the exit code is 2 when `written == 0` and 0 when the run
completes normally. -/
def run_main (env : Env) (now : String) : List Ev × Nat :=
  match env.videosJson with
  | none => ([], 1)
  | some none => ([], 1)
  | some (some items) =>
    let evts := run_events env items now
    (evts, if evts.countP is_write_ev = 0 then 2 else 0)


/-- A filesystem mutation performed by `write_json`. -/
inductive FsOp where
  | mkdirParents (dir : String)
  | writeFile (path : String) (content : String)
  | rename (src : String) (dst : String)
deriving DecidableEq

/-- Drop the last dot-suffix of a path, as `pathlib.Path.with_suffix` does
before attaching the new suffix (every path `write_json` is called with
ends in `".json"`, so the suffix search never crosses a directory
separator). -/
def drop_last_suffix (p : String) : String :=
  match p.data.reverse.dropWhile (fun c => c ≠ '.') with
  | [] => p
  | _ :: rest => ⟨rest.reverse⟩

/-- `path.with_suffix(".json.tmp")`: the sibling temporary path. -/
def with_suffix_json_tmp (p : String) : String :=
  drop_last_suffix p ++ ".json.tmp"

/-- Everything up to and including the last `/` of a path:
`path.parent`, rendered as a string. -/
def parent_dir (p : String) : String :=
  ⟨(p.data.reverse.dropWhile (fun c => c ≠ '/')).reverse⟩

/-- The filesystem operations `write_json(path, obj)` performs, in order:
create the parent directories, serialize the whole document to the sibling
temporary path, atomically rename the temporary file onto the final path. -/
def write_json_ops (path : String) (content : String) : List FsOp :=
  [FsOp.mkdirParents (parent_dir path),
   FsOp.writeFile (with_suffix_json_tmp path) content,
   FsOp.rename (with_suffix_json_tmp path) path]

/-- Effect of one operation on a name-to-content map (`none` = no file). -/
def applyFsOp (fs : String → Option String) : FsOp → (String → Option String)
  | .mkdirParents _ => fs
  | .writeFile p c => fun q => if q = p then some c else fs q
  | .rename src dst => fun q =>
      if q = dst then fs src else if q = src then none else fs q

/-- Effect of a sequence of operations, first to last. -/
def applyFsOps (fs : String → Option String) (ops : List FsOp) : String → Option String :=
  ops.foldl applyFsOp fs

/-- Does an operation mutate the file at path `p`? -/
def fsTouches (op : FsOp) (p : String) : Prop :=
  match op with
  | .mkdirParents _ => False
  | .writeFile q _ => q = p
  | .rename src dst => src = p ∨ dst = p

/-- A flat-listing probe document with two entries: a true playlist `PL1`
and a channel mix `VIDMIX` (the end-to-end scenario of the spec). -/
def flatDocPL : FlatDoc :=
  ⟨some [some ⟨some "PL1", some "First", .list [some ⟨some "http://t1"⟩]⟩,
         some ⟨some "VIDMIX", some "Mix", .absent⟩]⟩

/-- A flat-listing probe document with one video entry and one entry whose
id is missing. -/
def flatDocVid : FlatDoc :=
  ⟨some [some ⟨some "vid1", some "V", .absent⟩, some ⟨none, some "noid", .absent⟩]⟩

/-- Concrete environment: one channel declared in both roles, every probe
failing.  Exercises the double avatar resolution of `main`. -/
def envBothRoles : Env where
  videosJson := some (some
    [⟨some "youtube_channel_playlists", some "UC1", none⟩,
     ⟨some "youtube_channel_shorts", some "UC1", none⟩])
  avatar := fun _ => none
  playlistsProbe := fun _ => .error .timeout
  videosProbe := fun _ => .error .timeout
  itemsProbe := fun _ => .error .timeout
  oembed := fun _ => .failed "network"
  fullProbe := fun _ _ => .error .timeout

/-- Concrete environment: one playlist-role channel with a successful
listing probe, plus one declared playlist whose oEmbed lookup succeeds. -/
def envOk : Env where
  videosJson := some (some
    [⟨some "youtube_channel_playlists", some "UC1", none⟩,
     ⟨some "youtube_playlist", none, some "PLabc"⟩])
  avatar := fun _ => some "http://avatar"
  playlistsProbe := fun _ => .ok flatDocPL
  videosProbe := fun _ => .ok flatDocVid
  itemsProbe := fun _ => .ok flatDocVid
  oembed := fun _ => .ok (some " My List ") (some "http://thumb")
  fullProbe := fun _ _ => .error .timeout

/-- Concrete environment: `videos.json` is missing. -/
def envMissing : Env where
  videosJson := none
  avatar := fun _ => none
  playlistsProbe := fun _ => .error .timeout
  videosProbe := fun _ => .error .timeout
  itemsProbe := fun _ => .error .timeout
  oembed := fun _ => .failed "network"
  fullProbe := fun _ _ => .error .timeout

/-- C5: `_pick_thumb_from_list` is a total pure function; for an absent,
non-list or empty input it returns none, and for a list containing at least
one record with a non-empty `url` it returns the url of the last such
record scanning from the end (every record after it yields no truthy url). -/
theorem pick_thumb_from_list_spec :
    pick_thumb_from_list .absent = none ∧
    pick_thumb_from_list .nonList = none ∧
    pick_thumb_from_list (.list []) = none ∧
    (∀ (l₁ l₂ : List (Option ThumbRec)) (r : ThumbRec) (u : String),
      r.url = some u → u ≠ "" → (∀ t ∈ l₂, thumb_rec_url t = none) →
      pick_thumb_from_list (.list (l₁ ++ some r :: l₂)) = some u) := by
  refine ⟨rfl, rfl, rfl, ?_⟩
  intro l₁ l₂ r u hu hne hnone
  have hrev : (l₁ ++ some r :: l₂).reverse = (l₂.reverse ++ [some r]) ++ l₁.reverse := by
    simp
  have hr : thumb_rec_url (some r) = some u := by
    simp [thumb_rec_url, hu, hne]
  have h₂ : l₂.reverse.findSome? thumb_rec_url = none := by
    rw [List.findSome?_eq_none_iff]
    intro t ht
    exact hnone t (List.mem_reverse.mp ht)
  simp [pick_thumb_from_list, hrev, List.findSome?_append, h₂, List.findSome?_cons, hr]

/-- C5 witness: the selector applied to a concrete list whose last truthy
url is in the middle. -/
theorem pick_thumb_from_list_spec_witness :
    pick_thumb_from_list
      (.list [some ⟨some ""⟩, some ⟨some "http://a"⟩, none]) = some "http://a" :=
  pick_thumb_from_list_spec.2.2.2 [some ⟨some ""⟩] [none] ⟨some "http://a"⟩ "http://a"
    rfl (by decide) (by decide)

/-- C4: every item produced by a collector has a non-empty id (playlist
items additionally carry the `"PL"` id convention) and a url derived
deterministically from the id and the item kind. -/
theorem collector_item_shape :
    (∀ (env : Env) (ch : String), ∀ it ∈ collect_playlists env ch,
      it.id ≠ "" ∧ startswith_PL it.id = true ∧
      it.url = "https://www.youtube.com/playlist?list=" ++ it.id) ∧
    (∀ (env : Env) (ch : String), ∀ it ∈ collect_channel_videos env ch,
      it.id ≠ "" ∧ it.url = "https://www.youtube.com/watch?v=" ++ it.id) ∧
    (∀ (env : Env) (pl : String), ∀ it ∈ collect_playlist_items env pl,
      it.id ≠ "" ∧ it.url = "https://www.youtube.com/watch?v=" ++ it.id) := by
  refine ⟨?_, ?_, ?_⟩
  · intro env ch it hit
    rw [collect_playlists] at hit
    cases hp : env.playlistsProbe ch with
    | error e => rw [hp] at hit; simp at hit
    | ok j =>
      rw [hp] at hit
      simp only [List.mem_filterMap] at hit
      obtain ⟨e, -, heq⟩ := hit
      by_cases hsw : startswith_PL ((e.getD emptyFlatEntry).id.getD "") = true
      · rw [if_pos hsw] at heq
        cases heq
        refine ⟨?_, hsw, rfl⟩
        intro h0
        simp only [] at h0
        rw [h0] at hsw
        exact absurd hsw (by decide)
      · rw [if_neg hsw] at heq
        exact absurd heq (by simp)
  · intro env ch it hit
    rw [collect_channel_videos] at hit
    cases hp : env.videosProbe ch with
    | error e => rw [hp] at hit; simp at hit
    | ok j =>
      rw [hp] at hit
      simp only [List.mem_filterMap] at hit
      obtain ⟨e, -, heq⟩ := hit
      by_cases hid : ((e.getD emptyFlatEntry).id.getD "") = ""
      · rw [if_pos hid] at heq
        exact absurd heq (by simp)
      · rw [if_neg hid] at heq
        cases heq
        exact ⟨hid, rfl⟩
  · intro env pl it hit
    rw [collect_playlist_items] at hit
    cases hp : env.itemsProbe pl with
    | error e => rw [hp] at hit; simp at hit
    | ok j =>
      rw [hp] at hit
      simp only [List.mem_filterMap] at hit
      obtain ⟨e, -, heq⟩ := hit
      by_cases hid : ((e.getD emptyFlatEntry).id.getD "") = ""
      · rw [if_pos hid] at heq
        exact absurd heq (by simp)
      · rw [if_neg hid] at heq
        cases heq
        exact ⟨hid, rfl⟩

/-- C4 witness: the item collected from the concrete environment's listing
satisfies the shape invariants. -/
theorem collector_item_shape_witness :
    ("PL1" : String) ≠ "" ∧ startswith_PL "PL1" = true ∧
      "https://www.youtube.com/playlist?list=PL1" =
        "https://www.youtube.com/playlist?list=" ++ "PL1" :=
  collector_item_shape.1 envOk "UC1"
    ⟨"PL1", "First", "https://www.youtube.com/playlist?list=PL1",
      some "http://t1", "youtube_playlist", [], none⟩ (by decide)

/-- C6: every classified probe failure (timeout, tool failure, malformed
output) is absorbed at the collector boundary: the collector returns the
empty item list instead of propagating the failure. -/
theorem collector_soft_failure :
    (∀ (env : Env) (ch : String) (e : PErr), env.playlistsProbe ch = .error e →
      collect_playlists env ch = []) ∧
    (∀ (env : Env) (ch : String) (e : PErr), env.videosProbe ch = .error e →
      collect_channel_videos env ch = []) ∧
    (∀ (env : Env) (pl : String) (e : PErr), env.itemsProbe pl = .error e →
      collect_playlist_items env pl = []) := by
  refine ⟨?_, ?_, ?_⟩ <;> intro env x e h <;>
    simp [collect_playlists, collect_channel_videos, collect_playlist_items, h]

/-- C6 witness: a timed-out probe yields the empty list. -/
theorem collector_soft_failure_witness :
    collect_playlists envBothRoles "UC1" = [] :=
  collector_soft_failure.1 envBothRoles "UC1" .timeout rfl

/-- Helper: a url selected by the scan body is never the empty string. -/
theorem thumb_rec_url_ne_empty (t : Option ThumbRec) (u : String)
    (h : thumb_rec_url t = some u) : u ≠ "" := by
  cases t with
  | none => simp [thumb_rec_url] at h
  | some r =>
    cases hu : r.url with
    | none => simp [thumb_rec_url, hu] at h
    | some v =>
      by_cases hv : v = ""
      · simp [thumb_rec_url, hu, hv] at h
      · simp [thumb_rec_url, hu, hv] at h
        exact h ▸ hv

/-- Helper: the thumbnail selector never returns the empty string. -/
theorem pick_thumb_ne_empty (x : PyThumbs) (u : String)
    (h : pick_thumb_from_list x = some u) : u ≠ "" := by
  cases x with
  | absent => simp [pick_thumb_from_list] at h
  | nonList => simp [pick_thumb_from_list] at h
  | list ts =>
    by_cases he : ts.isEmpty
    · simp [pick_thumb_from_list, he] at h
    · simp only [pick_thumb_from_list, he, if_false, Bool.false_eq_true] at h
      obtain ⟨l₁, t, l₂, -, ht, -⟩ := List.findSome?_eq_some_iff.mp h
      exact thumb_rec_url_ne_empty t u ht

/-- Helper: the first-entry fallback thumbnail is never empty. -/
theorem pl_entry_thumb_ne_empty (j : PlaylistProbeDoc) (u : String)
    (h : pl_entry_thumb j = some u) : u ≠ "" := by
  rw [pl_entry_thumb] at h
  cases he : j.entries.getD [] with
  | nil => rw [he] at h; exact absurd h (by simp)
  | cons e es => rw [he] at h; exact pick_thumb_ne_empty _ u h

/-- Helper: a document produced by the full-probe retry loop always carries
a non-empty thumbnail. -/
theorem fetch_loop_some_thumbnail (probe : Nat → Except PErr PlaylistProbeDoc)
    (pl now : String) :
    ∀ (r a : Nat) (d : MetaDoc), (fetch_playlist_meta_loop probe pl now a r).1 = some d →
      ∃ t, d.thumbnail = some t ∧ t ≠ "" := by
  intro r
  induction r with
  | zero => intro a d h; exact absurd h (by simp [fetch_playlist_meta_loop])
  | succ n ih =>
    intro a d h
    rw [fetch_playlist_meta_loop] at h
    cases hp : probe a with
    | error e =>
      rw [hp] at h
      exact ih (a + 1) d h
    | ok j =>
      rw [hp] at h
      cases hroot : pl_root_thumb j with
      | some t =>
        simp only [hroot] at h
        cases h
        exact ⟨t, rfl, pick_thumb_ne_empty _ t hroot⟩
      | none =>
        simp only [hroot] at h
        cases hent : pl_entry_thumb j with
        | none => rw [hent] at h; exact absurd h (by simp)
        | some t =>
          rw [hent] at h
          cases h
          exact ⟨t, rfl, pl_entry_thumb_ne_empty j t hent⟩

/-- Helper: an oEmbed-resolved document always carries a non-empty
thumbnail. -/
theorem oembed_some_thumbnail (env : Env) (pl now : String) (d : MetaDoc)
    (h : oembed_playlist env pl now = some d) : ∃ t, d.thumbnail = some t ∧ t ≠ "" := by
  rw [oembed_playlist] at h
  cases ho : env.oembed pl with
  | httpError c => rw [ho] at h; exact absurd h (by simp)
  | failed m => rw [ho] at h; exact absurd h (by simp)
  | ok ti th =>
    rw [ho] at h
    cases th with
    | none => exact absurd h (by simp)
    | some v =>
      by_cases hv : v = ""
      · simp [hv] at h
      · simp [hv] at h
        exact ⟨v, by rw [← h], hv⟩

/-- C3: if the lightweight oEmbed lookup yields a truthy thumbnail,
`fetch_playlist_meta` resolves from it alone: the document is tagged
`source = "oembed"` and the `yt-dlp` full probe is invoked zero times. -/
theorem oembed_short_circuit (env : Env) (pl now : String) (retries : Nat)
    (ti : Option String) (th : String)
    (hoe : env.oembed pl = .ok ti (some th)) (hth : th ≠ "") :
    (fetch_playlist_meta env pl retries now).2 = 0 ∧
    ∃ d, (fetch_playlist_meta env pl retries now).1 = some d ∧
      d.source = "oembed" ∧ d.thumbnail = some th := by
  have h : oembed_playlist env pl now =
      some { playlistId := pl, title := py_strip (ti.getD ""), thumbnail := some th,
             generatedAt := now, source := "oembed" } := by
    simp [oembed_playlist, hoe, hth]
  exact ⟨by simp [fetch_playlist_meta, h],
    { playlistId := pl, title := py_strip (ti.getD ""), thumbnail := some th,
      generatedAt := now, source := "oembed" },
    by simp [fetch_playlist_meta, h], rfl, rfl⟩

/-- C3 witness: the concrete environment's oEmbed lookup succeeds, so the
resolver returns an oEmbed-tagged document without any full-probe call. -/
theorem oembed_short_circuit_witness :
    (fetch_playlist_meta envOk "PLabc" 1 "T").2 = 0 ∧
    ∃ d, (fetch_playlist_meta envOk "PLabc" 1 "T").1 = some d ∧
      d.source = "oembed" ∧ d.thumbnail = some "http://thumb" :=
  oembed_short_circuit envOk "PLabc" "T" 1 (some " My List ") "http://thumb" rfl (by decide)

/-- C7: in the full-probe tier, a successful probe takes the thumbnail from
the document root's own thumbnail list, falling back to the first entry's
list when the root yields none; when neither yields a thumbnail the loop
returns none at once; when every attempt fails the loop returns none; and
the resolver as a whole never returns a document with a null (or empty)
thumbnail field. -/
theorem full_probe_thumbnail_policy :
    (∀ (env : Env) (pl : String) (retries : Nat) (now : String) (d : MetaDoc),
      (fetch_playlist_meta env pl retries now).1 = some d →
      ∃ t, d.thumbnail = some t ∧ t ≠ "") ∧
    (∀ (probe : Nat → Except PErr PlaylistProbeDoc) (pl now : String) (a r : Nat)
      (j : PlaylistProbeDoc) (t : String),
      probe a = .ok j → pl_root_thumb j = some t →
      (fetch_playlist_meta_loop probe pl now a (r + 1)).1 =
        some { playlistId := pl, title := py_strip (j.title.getD ""),
               thumbnail := some t, generatedAt := now, source := "yt-dlp" }) ∧
    (∀ (probe : Nat → Except PErr PlaylistProbeDoc) (pl now : String) (a r : Nat)
      (j : PlaylistProbeDoc) (t : String),
      probe a = .ok j → pl_root_thumb j = none → pl_entry_thumb j = some t →
      (fetch_playlist_meta_loop probe pl now a (r + 1)).1 =
        some { playlistId := pl, title := py_strip (j.title.getD ""),
               thumbnail := some t, generatedAt := now, source := "yt-dlp" }) ∧
    (∀ (probe : Nat → Except PErr PlaylistProbeDoc) (pl now : String) (a r : Nat)
      (j : PlaylistProbeDoc),
      probe a = .ok j → pl_root_thumb j = none → pl_entry_thumb j = none →
      (fetch_playlist_meta_loop probe pl now a (r + 1)).1 = none) ∧
    (∀ (probe : Nat → Except PErr PlaylistProbeDoc) (pl now : String) (a r : Nat),
      (∀ k : Nat, ∃ er, probe k = .error er) →
      (fetch_playlist_meta_loop probe pl now a r).1 = none) := by
  refine ⟨?_, ?_, ?_, ?_, ?_⟩
  · intro env pl retries now d h
    rw [fetch_playlist_meta] at h
    cases ho : oembed_playlist env pl now with
    | some m =>
      rw [ho] at h
      cases h
      exact oembed_some_thumbnail env pl now d ho
    | none =>
      rw [ho] at h
      exact fetch_loop_some_thumbnail (env.fullProbe pl) pl now retries 1 d h
  · intro probe pl now a r j t hp hroot
    rw [fetch_playlist_meta_loop, hp]
    simp [hroot]
  · intro probe pl now a r j t hp hroot hent
    rw [fetch_playlist_meta_loop, hp]
    simp [hroot, hent]
  · intro probe pl now a r j hp hroot hent
    rw [fetch_playlist_meta_loop, hp]
    simp [hroot, hent]
  · intro probe pl now a r hfail
    induction r generalizing a with
    | zero => simp [fetch_playlist_meta_loop]
    | succ n ih =>
      obtain ⟨er, hk⟩ := hfail a
      rw [fetch_playlist_meta_loop, hk]
      exact ih (a + 1)

/-- C7 witness: a first-attempt probe whose root thumbnail list is empty but
whose first entry carries one resolves to that entry's thumbnail. -/
theorem full_probe_thumbnail_policy_witness :
    (fetch_playlist_meta_loop
      (fun _ => .ok ⟨some "T", .list [], some [some ⟨.list [some ⟨some "http://e"⟩]⟩]⟩)
      "PLw" "N" 1 1).1 =
      some { playlistId := "PLw", title := py_strip ((some "T").getD ""),
             thumbnail := some "http://e", generatedAt := "N", source := "yt-dlp" } :=
  full_probe_thumbnail_policy.2.2.1
    (fun _ => .ok ⟨some "T", .list [], some [some ⟨.list [some ⟨some "http://e"⟩]⟩]⟩)
    "PLw" "N" 1 0 ⟨some "T", .list [], some [some ⟨.list [some ⟨some "http://e"⟩]⟩]⟩
    "http://e" rfl (by decide) (by decide)

/-- Helper: `with_suffix` strips a final `".json"` extension. -/
theorem drop_last_suffix_json (stem : String) :
    drop_last_suffix (stem ++ ".json") = stem := by
  have hdata : (stem ++ ".json").data.reverse
      = 'n' :: 'o' :: 's' :: 'j' :: '.' :: stem.data.reverse := by
    rw [String.data_append, List.reverse_append]
    rfl
  rw [drop_last_suffix, hdata]
  have hdrop : List.dropWhile (fun c => decide (c ≠ '.'))
      ('n' :: 'o' :: 's' :: 'j' :: '.' :: stem.data.reverse)
      = '.' :: stem.data.reverse := by
    simp [List.dropWhile_cons]
  rw [hdrop]
  show String.mk stem.data.reverse.reverse = stem
  rw [List.reverse_reverse]

/-- Helper: the temporary sibling path differs from the final path. -/
theorem tmp_ne_json (stem : String) :
    with_suffix_json_tmp (stem ++ ".json") ≠ stem ++ ".json" := by
  rw [with_suffix_json_tmp, drop_last_suffix_json]
  intro h
  have hlen := congrArg String.length h
  rw [String.length_append, String.length_append] at hlen
  have h9 : (".json.tmp" : String).length = 9 := rfl
  have h5 : (".json" : String).length = 5 := rfl
  rw [h9, h5] at hlen
  omega

/-- C1: `write_json` touches the final path only through the single atomic
rename of the fully-written sibling temporary file: the rename is the only
operation that mutates the final path, every state strictly before the
rename (including one where the temporary file holds partial content) still
shows the previous value at the final path, and the state after the full
sequence shows the complete new document. -/
theorem write_json_atomic (fs0 : String → Option String) (stem content : String) :
    (∀ op ∈ write_json_ops (stem ++ ".json") content,
      fsTouches op (stem ++ ".json") →
      op = FsOp.rename (with_suffix_json_tmp (stem ++ ".json")) (stem ++ ".json")) ∧
    (∀ (partialContent : String) (k : Nat), k < 3 →
      applyFsOps fs0 ((write_json_ops (stem ++ ".json") partialContent).take k)
        (stem ++ ".json") = fs0 (stem ++ ".json")) ∧
    applyFsOps fs0 (write_json_ops (stem ++ ".json") content) (stem ++ ".json")
      = some content := by
  have hne := tmp_ne_json stem
  have hne' : ¬(stem ++ ".json" = with_suffix_json_tmp (stem ++ ".json")) :=
    fun h => hne h.symm
  refine ⟨?_, ?_, ?_⟩
  · intro op hop htouch
    simp only [write_json_ops, List.mem_cons, List.not_mem_nil, or_false] at hop
    rcases hop with rfl | rfl | rfl
    · simp [fsTouches] at htouch
    · exact absurd htouch hne
    · rfl
  · intro c k hk
    interval_cases k
    · rfl
    · rfl
    · simp [write_json_ops, applyFsOps, applyFsOp, hne']
  · simp [write_json_ops, applyFsOps, applyFsOp]

/-- C1 witness: on an initially empty filesystem, the intermediate state
after a partial temp write still has nothing at the final path, and the
full sequence ends with the document at the final path. -/
theorem write_json_atomic_witness :
    applyFsOps (fun _ => none) ((write_json_ops ("UC1" ++ ".json") "par").take 2)
      ("UC1" ++ ".json") = none ∧
    applyFsOps (fun _ => none) (write_json_ops ("UC1" ++ ".json") "doc")
      ("UC1" ++ ".json") = some "doc" :=
  ⟨(write_json_atomic (fun _ => none) "UC1" "doc").2.1 "par" 2 (by decide),
   (write_json_atomic (fun _ => none) "UC1" "doc").2.2⟩

/-- C2: the process exit status is 1 exactly when `videos.json` is missing
(and then nothing is written), 2 when the run completes having written zero
documents, and 0 when at least one document was written; with the input
loaded, the exit status depends only on the count of written documents, so
per-source soft failures never by themselves cause a nonzero exit. -/
theorem exit_code_spec (env : Env) (now : String) :
    (env.videosJson = none → run_main env now = ([], 1)) ∧
    (∀ items, env.videosJson = some (some items) →
      ((run_main env now).1.countP is_write_ev = 0 → (run_main env now).2 = 2) ∧
      (1 ≤ (run_main env now).1.countP is_write_ev → (run_main env now).2 = 0)) := by
  refine ⟨fun h => by simp [run_main, h], fun items h => ⟨?_, ?_⟩⟩
  · intro h0
    simp only [run_main, h] at h0 ⊢
    rw [if_pos h0]
  · intro h1
    simp only [run_main, h] at h1 ⊢
    rw [if_neg (by omega)]

/-- C2 witness: a missing input exits 1 with no writes; an input with no
usable sources exits 2; an input producing at least one document exits 0. -/
theorem exit_code_spec_witness :
    run_main envMissing "T" = ([], 1) ∧
    (run_main { envMissing with videosJson := some (some []) } "T").2 = 2 ∧
    (run_main envOk "T").2 = 0 :=
  ⟨(exit_code_spec envMissing "T").1 rfl,
   ((exit_code_spec _ "T").2 [] rfl).1 (by decide),
   ((exit_code_spec envOk "T").2 _ rfl).2 (by decide)⟩

/-- Helper: summing the indicator of one element over a duplicate-free list
gives the membership indicator. -/
theorem sum_indicator_of_nodup (ch : String) :
    ∀ (l : List String), l.Nodup →
      (l.map fun x => if x = ch then 1 else 0).sum = if ch ∈ l then 1 else 0 := by
  intro l
  induction l with
  | nil => intro _; simp
  | cons x xs ih =>
    intro hnd
    rw [List.nodup_cons] at hnd
    rw [List.map_cons, List.sum_cons, ih hnd.2]
    by_cases hx : x = ch
    · subst hx
      simp [hnd.1]
    · simp [hx, Ne.symm hx]

/-- Helper: the per-role channel lists are duplicate-free. -/
theorem channels_for_nodup (ty : String) (items : List SrcItem) :
    (channels_for ty items).Nodup := by
  rw [channels_for]
  exact ((List.perm_insertionSort _ _).nodup_iff).mpr (List.nodup_dedup _)

/-- Helper: one playlist-role channel body performs exactly one avatar
resolution, for its own channel. -/
theorem countAvatarCalls_playlist_role (env : Env) (now ch ch' : String) :
    countAvatarCalls (playlist_role_events env now ch') ch = if ch' = ch then 1 else 0 := by
  rw [playlist_role_events, countAvatarCalls]
  simp only [List.countP_cons]
  have h0 : ((collect_playlists env ch').filterMap fun p =>
      if p.id = "" then none
      else some (Ev.write (Dir.playlist_items, p.id ++ ".json")
        (.playlistItems p.id now (collect_playlist_items env p.id)))).countP
      (fun ev => match ev with | .avatarCall c => decide (c = ch) | _ => false) = 0 := by
    rw [List.countP_eq_zero]
    intro a ha
    obtain ⟨p, -, hp⟩ := List.mem_filterMap.mp ha
    by_cases hid : p.id = ""
    · rw [if_pos hid] at hp
      exact absurd hp (by simp)
    · rw [if_neg hid] at hp
      cases hp
      simp
  rw [h0]
  by_cases hch : ch' = ch <;> simp [hch]

/-- Helper: one shorts-role channel body performs exactly one avatar
resolution, for its own channel. -/
theorem countAvatarCalls_shorts_role (env : Env) (now ch ch' : String) :
    countAvatarCalls (shorts_role_events env now ch') ch = if ch' = ch then 1 else 0 := by
  rw [shorts_role_events, countAvatarCalls]
  by_cases hch : ch' = ch <;> simp [List.countP_cons, hch]

/-- Helper: the explicit-playlist bodies never resolve an avatar. -/
theorem countAvatarCalls_playlist_source (env : Env) (now ch pl : String) :
    countAvatarCalls (playlist_source_events env now pl) ch = 0 := by
  rw [playlist_source_events, countAvatarCalls, List.countP_append]
  cases hm : (fetch_playlist_meta env pl 1 now).1 <;> simp [hm, List.countP_cons]

/-- C8 counterexample: in a run whose input declares the same channel in
both the playlists role and the shorts role, `main` resolves the avatar
twice — there is no memoization cache shared between the two role loops. -/
theorem avatar_memoization_counterexample :
    countAvatarCalls (run_main envBothRoles "T").1 "UC1" = 2 ∧
    ¬ countAvatarCalls (run_main envBothRoles "T").1 "UC1" ≤ 1 := by decide

/-- C8 amended: avatar resolution is performed exactly once per (channel,
role) pair: a channel in the playlist role is probed once by that loop and
a channel in the shorts role once by that loop, so a channel present in
both roles is probed twice, not once. -/
theorem avatar_resolved_once_per_role (env : Env) (items : List SrcItem) (now ch : String) :
    countAvatarCalls (run_events env items now) ch =
      (if ch ∈ channels_for "youtube_channel_playlists" items then 1 else 0) +
      (if ch ∈ channels_for "youtube_channel_shorts" items then 1 else 0) := by
  have hp := fun ch' => countAvatarCalls_playlist_role env now ch ch'
  have hs := fun ch' => countAvatarCalls_shorts_role env now ch ch'
  have hq := fun pl => countAvatarCalls_playlist_source env now ch pl
  rw [run_events, countAvatarCalls, List.countP_append, List.countP_append,
    List.countP_flatMap, List.countP_flatMap, List.countP_flatMap]
  simp only [Function.comp_def]
  simp only [countAvatarCalls] at hp hs hq
  rw [List.map_congr_left (fun ch' _ => hp ch'),
    List.map_congr_left (fun ch' _ => hs ch'),
    List.map_congr_left (fun pl _ => hq pl)]
  rw [sum_indicator_of_nodup ch _ (channels_for_nodup _ items),
    sum_indicator_of_nodup ch _ (channels_for_nodup _ items)]
  simp

/-- Helper: appending the same suffix is cancellative on strings. -/
theorem str_append_cancel (a b c : String) (h : a ++ c = b ++ c) : a = b := by
  obtain ⟨da⟩ := a
  obtain ⟨db⟩ := b
  have hd := congrArg String.data h
  rw [String.data_append, String.data_append] at hd
  exact congrArg String.mk (List.append_cancel_right hd)

/-- Helper: one playlist-role channel body writes exactly one document into
`catalog/playlists/`, namely its own channel document. -/
theorem countWritesTo_playlist_role (env : Env) (now ch ch' : String) :
    countWritesTo (playlist_role_events env now ch') (Dir.playlists, ch ++ ".json") =
      if ch' = ch then 1 else 0 := by
  rw [playlist_role_events, countWritesTo]
  simp only [List.countP_cons]
  have h0 : ((collect_playlists env ch').filterMap fun p =>
      if p.id = "" then none
      else some (Ev.write (Dir.playlist_items, p.id ++ ".json")
        (.playlistItems p.id now (collect_playlist_items env p.id)))).countP
      (fun ev => match ev with
        | .write q _ => decide (q = (Dir.playlists, ch ++ ".json"))
        | _ => false) = 0 := by
    rw [List.countP_eq_zero]
    intro a ha
    obtain ⟨p, -, hp⟩ := List.mem_filterMap.mp ha
    by_cases hid : p.id = ""
    · rw [if_pos hid] at hp
      exact absurd hp (by simp)
    · rw [if_neg hid] at hp
      cases hp
      simp [Prod.ext_iff]
  rw [h0]
  by_cases hch : ch' = ch
  · subst hch
    simp [Prod.ext_iff]
  · have hne : ¬(ch' ++ ".json" = ch ++ ".json") :=
      fun h => hch (str_append_cancel ch' ch ".json" h)
    simp [Prod.ext_iff, hne, hch]

/-- Helper: the shorts-role body writes nothing into `catalog/playlists/`,
and the playlist-role body writes nothing into `catalog/shorts/`. -/
theorem countWritesTo_other_dirs (env : Env) (now ch x : String) :
    countWritesTo (shorts_role_events env now x) (Dir.playlists, ch ++ ".json") = 0 ∧
    countWritesTo (playlist_role_events env now x) (Dir.shorts, ch ++ ".json") = 0 ∧
    countWritesTo (playlist_source_events env now x) (Dir.playlists, ch ++ ".json") = 0 ∧
    countWritesTo (playlist_source_events env now x) (Dir.shorts, ch ++ ".json") = 0 := by
  refine ⟨?_, ?_, ?_, ?_⟩
  · simp [shorts_role_events, countWritesTo, List.countP_cons, Prod.ext_iff]
  · rw [playlist_role_events, countWritesTo]
    simp only [List.countP_cons]
    have h0 : ((collect_playlists env x).filterMap fun p =>
        if p.id = "" then none
        else some (Ev.write (Dir.playlist_items, p.id ++ ".json")
          (.playlistItems p.id now (collect_playlist_items env p.id)))).countP
        (fun ev => match ev with
          | .write q _ => decide (q = (Dir.shorts, ch ++ ".json"))
          | _ => false) = 0 := by
      rw [List.countP_eq_zero]
      intro a ha
      obtain ⟨p, -, hp⟩ := List.mem_filterMap.mp ha
      by_cases hid : p.id = ""
      · rw [if_pos hid] at hp
        exact absurd hp (by simp)
      · rw [if_neg hid] at hp
        cases hp
        simp [Prod.ext_iff]
    rw [h0]
    simp [Prod.ext_iff]
  · rw [playlist_source_events, countWritesTo, List.countP_append]
    cases hm : (fetch_playlist_meta env x 1 now).1 <;>
      simp [List.countP_cons, Prod.ext_iff]
  · rw [playlist_source_events, countWritesTo, List.countP_append]
    cases hm : (fetch_playlist_meta env x 1 now).1 <;>
      simp [List.countP_cons, Prod.ext_iff]

/-- Helper: the shorts-role body writes exactly one document into
`catalog/shorts/`, namely its own channel document. -/
theorem countWritesTo_shorts_role (env : Env) (now ch ch' : String) :
    countWritesTo (shorts_role_events env now ch') (Dir.shorts, ch ++ ".json") =
      if ch' = ch then 1 else 0 := by
  rw [shorts_role_events, countWritesTo]
  by_cases hch : ch' = ch
  · subst hch
    simp [List.countP_cons, Prod.ext_iff]
  · have hne : ¬(ch' ++ ".json" = ch ++ ".json") :=
      fun h => hch (str_append_cancel ch' ch ".json" h)
    simp [List.countP_cons, Prod.ext_iff, hne, hch]

/-- Helper: the code-point comparison is total. -/
theorem chars_le_total (a b : List Char) : chars_le a b = true ∨ chars_le b a = true := by
  induction a generalizing b with
  | nil => left; rfl
  | cons x xs ih =>
    cases b with
    | nil => right; rfl
    | cons y ys =>
      by_cases hxy : x = y
      · subst hxy; simpa [chars_le] using ih ys
      · rcases lt_or_gt_of_ne hxy with h | h
        · left; simp [chars_le, hxy, h]
        · right; simp [chars_le, Ne.symm hxy, h, not_lt_of_gt h]

/-- Helper: the code-point comparison is transitive. -/
theorem chars_le_trans (a b c : List Char) (hab : chars_le a b = true)
    (hbc : chars_le b c = true) : chars_le a c = true := by
  induction a generalizing b c with
  | nil => rfl
  | cons x xs ih =>
    cases b with
    | nil => simp [chars_le] at hab
    | cons y ys =>
      cases c with
      | nil => simp [chars_le] at hbc
      | cons z zs =>
        by_cases hxy : x = y <;> by_cases hyz : y = z
        · subst hxy; subst hyz
          simp [chars_le] at hab hbc ⊢
          exact ih ys zs hab hbc
        · subst hxy
          simp [chars_le, hyz] at hbc ⊢
          simp [hyz, hbc]
        · subst hyz
          simp [chars_le, hxy] at hab ⊢
          simp [hxy, hab]
        · simp [chars_le, hxy, hyz] at hab hbc ⊢
          have hxz : x < z := lt_trans hab hbc
          simp [ne_of_lt hxz, hxz]

/-- Helper: `str_le` is total. -/
theorem str_le_total (a b : String) : str_le a b = true ∨ str_le b a = true :=
  chars_le_total a.data b.data

/-- Helper: `str_le` is transitive. -/
theorem str_le_trans (a b c : String) (hab : str_le a b = true)
    (hbc : str_le b c = true) : str_le a c = true :=
  chars_le_trans a.data b.data c.data hab hbc

/-- C10: the orchestrator deduplicates channel descriptors per role and
processes them in ascending channel-id order: for each role the driving
channel list is sorted, duplicate-free, and contains a channel iff some
source descriptor declares it with that role and a truthy channelId; and
every run writes exactly one channel document per channel present in a
role, regardless of how many descriptors declared it. -/
theorem role_partition_spec :
    (∀ (ty : String) (items : List SrcItem),
      List.Sorted (fun a b => str_le a b = true) (channels_for ty items)) ∧
    (∀ (ty : String) (items : List SrcItem), (channels_for ty items).Nodup) ∧
    (∀ (ty : String) (items : List SrcItem) (ch : String),
      ch ∈ channels_for ty items ↔
        ch ≠ "" ∧ ∃ it ∈ items, it.type = some ty ∧ it.channelId = some ch) ∧
    (∀ (env : Env) (items : List SrcItem) (now ch : String),
      countWritesTo (run_events env items now) (Dir.playlists, ch ++ ".json") =
        if ch ∈ channels_for "youtube_channel_playlists" items then 1 else 0) ∧
    (∀ (env : Env) (items : List SrcItem) (now ch : String),
      countWritesTo (run_events env items now) (Dir.shorts, ch ++ ".json") =
        if ch ∈ channels_for "youtube_channel_shorts" items then 1 else 0) := by
  have hsortinst : IsTotal String (fun a b => str_le a b = true) := ⟨str_le_total⟩
  have htransinst : IsTrans String (fun a b => str_le a b = true) := ⟨str_le_trans⟩
  refine ⟨?_, channels_for_nodup, ?_, ?_, ?_⟩
  · intro ty items
    rw [channels_for]
    exact List.sorted_insertionSort _ _
  · intro ty items ch
    rw [channels_for, List.mem_insertionSort, List.mem_dedup, List.mem_filterMap]
    constructor
    · rintro ⟨it, hmem, hit⟩
      by_cases hty : it.type = some ty
      · rw [if_pos hty] at hit
        cases hcid : it.channelId with
        | none => rw [hcid] at hit; simp [truthy_opt] at hit
        | some c =>
          rw [hcid] at hit
          by_cases hc : c = ""
          · simp [truthy_opt, hc] at hit
          · simp only [truthy_opt, hc, if_false, Option.some.injEq] at hit
            subst hit
            exact ⟨hc, it, hmem, hty, hcid⟩
      · rw [if_neg hty] at hit
        exact absurd hit (by simp)
    · rintro ⟨hch, it, hmem, hty, hcid⟩
      refine ⟨it, hmem, ?_⟩
      rw [if_pos hty, hcid]
      simp [truthy_opt, hch]
  · intro env items now ch
    have hp := fun ch' => countWritesTo_playlist_role env now ch ch'
    have hs := fun x => (countWritesTo_other_dirs env now ch x).1
    have hq := fun x => (countWritesTo_other_dirs env now ch x).2.2.1
    rw [run_events, countWritesTo, List.countP_append, List.countP_append,
      List.countP_flatMap, List.countP_flatMap, List.countP_flatMap]
    simp only [Function.comp_def]
    simp only [countWritesTo] at hp hs hq
    rw [List.map_congr_left (fun ch' _ => hp ch'),
      List.map_congr_left (fun x _ => hs x),
      List.map_congr_left (fun x _ => hq x)]
    rw [sum_indicator_of_nodup ch _ (channels_for_nodup _ items)]
    simp
  · intro env items now ch
    have hp := fun x => (countWritesTo_other_dirs env now ch x).2.1
    have hs := fun ch' => countWritesTo_shorts_role env now ch ch'
    have hq := fun x => (countWritesTo_other_dirs env now ch x).2.2.2
    rw [run_events, countWritesTo, List.countP_append, List.countP_append,
      List.countP_flatMap, List.countP_flatMap, List.countP_flatMap]
    simp only [Function.comp_def]
    simp only [countWritesTo] at hp hs hq
    rw [List.map_congr_left (fun x _ => hp x),
      List.map_congr_left (fun ch' _ => hs ch'),
      List.map_congr_left (fun x _ => hq x)]
    rw [sum_indicator_of_nodup ch _ (channels_for_nodup _ items)]
    simp

/-- Helper: `flatMap` respects pointwise-equal bodies. -/
theorem flatMap_congr_fun {α β : Type} (l : List α) (f g : α → List β)
    (h : ∀ x ∈ l, f x = g x) : l.flatMap f = l.flatMap g := by
  induction l with
  | nil => rfl
  | cons x xs ih =>
    rw [List.flatMap_cons, List.flatMap_cons, h x (List.mem_cons_self x xs),
      ih fun y hy => h y (List.mem_cons_of_mem x hy)]

/-- Helper: the oEmbed tier yields, up to the timestamp, the same document
whatever the clock says. -/
theorem oembed_erase_invariant (env : Env) (pl n1 n2 : String) :
    (oembed_playlist env pl n1).map erase_meta = (oembed_playlist env pl n2).map erase_meta := by
  rw [oembed_playlist, oembed_playlist]
  cases env.oembed pl with
  | httpError c => rfl
  | failed m => rfl
  | ok ti th =>
    cases th with
    | none => rfl
    | some v =>
      by_cases hv : v = "" <;> simp [hv, erase_meta]

/-- Helper: the full-probe retry loop yields, up to the timestamp, the same
document whatever the clock says. -/
theorem fetch_loop_erase_invariant (probe : Nat → Except PErr PlaylistProbeDoc)
    (pl n1 n2 : String) :
    ∀ (r a : Nat),
      ((fetch_playlist_meta_loop probe pl n1 a r).1).map erase_meta =
      ((fetch_playlist_meta_loop probe pl n2 a r).1).map erase_meta := by
  intro r
  induction r with
  | zero => intro a; rfl
  | succ n ih =>
    intro a
    rw [fetch_playlist_meta_loop, fetch_playlist_meta_loop]
    cases probe a with
    | error e => exact ih (a + 1)
    | ok j =>
      cases hroot : pl_root_thumb j with
      | some t => simp [hroot, erase_meta]
      | none =>
        cases hent : pl_entry_thumb j with
        | none => simp [hroot, hent]
        | some t => simp [hroot, hent, erase_meta]

/-- Helper: `fetch_playlist_meta` yields, up to the timestamp, the same
document whatever the clock says. -/
theorem fetch_meta_erase_invariant (env : Env) (pl : String) (retries : Nat)
    (n1 n2 : String) :
    ((fetch_playlist_meta env pl retries n1).1).map erase_meta =
    ((fetch_playlist_meta env pl retries n2).1).map erase_meta := by
  have ho := oembed_erase_invariant env pl n1 n2
  rw [fetch_playlist_meta, fetch_playlist_meta]
  cases h1 : oembed_playlist env pl n1 with
  | some m1 =>
    cases h2 : oembed_playlist env pl n2 with
    | some m2 => rw [h1, h2] at ho; simpa using ho
    | none => rw [h1, h2] at ho; simp at ho
  | none =>
    cases h2 : oembed_playlist env pl n2 with
    | some m2 => rw [h1, h2] at ho; simp at ho
    | none => exact fetch_loop_erase_invariant (env.fullProbe pl) pl n1 n2 retries 1

/-- Helper: `filterMap` respects pointwise-equal bodies. -/
theorem filterMap_congr_fun {α β : Type} (l : List α) (f g : α → Option β)
    (h : ∀ x ∈ l, f x = g x) : l.filterMap f = l.filterMap g := by
  induction l with
  | nil => rfl
  | cons x xs ih =>
    rw [List.filterMap_cons, List.filterMap_cons, h x (List.mem_cons_self x xs),
      ih fun y hy => h y (List.mem_cons_of_mem x hy)]

/-- Helper: one playlist-role body emits, up to timestamps, the same events
whatever the clock says. -/
theorem playlist_role_erase_invariant (env : Env) (n1 n2 ch : String) :
    (playlist_role_events env n1 ch).map erase_ev =
    (playlist_role_events env n2 ch).map erase_ev := by
  rw [playlist_role_events, playlist_role_events]
  simp only [List.map_cons, erase_ev, erase_doc, List.map_filterMap, List.cons.injEq]
  refine ⟨trivial, trivial, ?_⟩
  apply filterMap_congr_fun
  intro p _
  by_cases hid : p.id = "" <;> simp [hid, erase_ev, erase_doc]

/-- Helper: one shorts-role body emits, up to timestamps, the same events
whatever the clock says. -/
theorem shorts_role_erase_invariant (env : Env) (n1 n2 ch : String) :
    (shorts_role_events env n1 ch).map erase_ev =
    (shorts_role_events env n2 ch).map erase_ev := by
  simp [shorts_role_events, erase_ev, erase_doc]

/-- Helper: one explicit-playlist body emits, up to timestamps, the same
events whatever the clock says. -/
theorem playlist_source_erase_invariant (env : Env) (n1 n2 pl : String) :
    (playlist_source_events env n1 pl).map erase_ev =
    (playlist_source_events env n2 pl).map erase_ev := by
  have hm := fetch_meta_erase_invariant env pl 1 n1 n2
  rw [playlist_source_events, playlist_source_events, List.map_append, List.map_append]
  cases h1 : (fetch_playlist_meta env pl 1 n1).1 with
  | some m1 =>
    cases h2 : (fetch_playlist_meta env pl 1 n2).1 with
    | some m2 =>
      rw [h1, h2] at hm
      simp only [Option.map_some'] at hm
      simp only [List.map_cons, List.map_nil, erase_ev, erase_doc]
      rw [Option.some.inj hm]
    | none => rw [h1, h2] at hm; simp at hm
  | none =>
    cases h2 : (fetch_playlist_meta env pl 1 n2).1 with
    | some m2 => rw [h1, h2] at hm; simp at hm
    | none => simp [erase_ev, erase_doc]

/-- Helper: a whole post-load run emits, up to timestamps, the same events
whatever the clock says. -/
theorem run_events_erase_invariant (env : Env) (items : List SrcItem) (n1 n2 : String) :
    (run_events env items n1).map erase_ev = (run_events env items n2).map erase_ev := by
  rw [run_events, run_events, List.map_append, List.map_append, List.map_append,
    List.map_append, List.map_flatMap, List.map_flatMap, List.map_flatMap,
    List.map_flatMap, List.map_flatMap, List.map_flatMap]
  rw [flatMap_congr_fun _ _ _ (fun ch _ => playlist_role_erase_invariant env n1 n2 ch),
    flatMap_congr_fun _ _ _ (fun ch _ => shorts_role_erase_invariant env n1 n2 ch),
    flatMap_congr_fun _ _ _ (fun pl _ => playlist_source_erase_invariant env n1 n2 pl)]

/-- C9: running `main` twice over the same input and the same external
responses produces identical event sequences — the same documents at the
same paths in the same order — up to the `generatedAt` timestamp field, and
the same exit code. -/
theorem run_deterministic (env : Env) (n1 n2 : String) :
    (run_main env n1).1.map erase_ev = (run_main env n2).1.map erase_ev ∧
    (run_main env n1).2 = (run_main env n2).2 := by
  cases hv : env.videosJson with
  | none => simp [run_main, hv]
  | some o =>
    cases o with
    | none => simp [run_main, hv]
    | some items =>
      have he := run_events_erase_invariant env items n1 n2
      have hwe : ∀ l : List Ev, l.countP is_write_ev = (l.map erase_ev).countP is_write_ev := by
        intro l
        rw [List.countP_map]
        have hcomp : is_write_ev ∘ erase_ev = is_write_ev := by
          funext ev; cases ev <;> rfl
        rw [hcomp]
      have hc : (run_events env items n1).countP is_write_ev
          = (run_events env items n2).countP is_write_ev := by
        rw [hwe, he, ← hwe]
      constructor
      · simpa [run_main, hv] using he
      · simp [run_main, hv, hc]
